import Mathlib

/-!
Shallow embedding of the `@macchiatojs/cors` middleware (src/index.ts)
and proofs about its CORS header-decision policy.

The middleware is a single function `cors(options)` that resolves a
configuration once (spreading defaults, joining array-valued options,
coercing `credentials` to a boolean) and returns a per-request handler
`main(request, response, next)` closed over that configuration.

Modelling choices, each traceable to the source:
 * A JavaScript value of TypeScript type `string | string[]` is
   `StrOrList`.
 * A field of an options object is `Option (Option α)`: the outer
   `Option` records whether the key is present in the object at all,
   the inner one whether its value is `undefined`.  This is needed to
   model the spread merge `{...defaultOptions, ...options}` faithfully:
   a key explicitly present and mapped to `undefined` overrides the
   default, while an absent key does not.
 * After the merge and destructuring, each configuration variable is a
   plain `Option α` (`none` = `undefined`).
 * JavaScript truthiness on those values is made explicit (`truthy`,
   `truthyStr`): `undefined` and the empty string are falsy, arrays
   are truthy.
 * The response is a record with an association list of headers, a
   status and a body.  `Response.set`, `Response.vary` and
   `Response.send` model the kernel's response operations.
 * `main` is written in state-passing style: it returns the mutated
   response, the number of times the continuation `next` was invoked,
   and the configuration as it stands after the call.  The last
   component exists because line 68 of the source
   (`if (!allowHeaders) allowHeaders = request.get(...)`) assigns to a
   variable captured from the enclosing `cors` scope, so an invocation
   can change the state later invocations observe.
-/

/-- A JavaScript value of type `string | string[]`. -/
inductive StrOrList where
  | str : String → StrOrList
  | list : List String → StrOrList
deriving DecidableEq, Repr

/-- JavaScript truthiness of a `string | string[] | undefined` value:
`undefined` and `""` are falsy; every array (even `[]`) is truthy. -/
def truthy : Option StrOrList → Bool
  | none => false
  | some (.str s) => !s.isEmpty
  | some (.list _) => true

/-- JavaScript truthiness of a `string | undefined` value. -/
def truthyStr : Option String → Bool
  | none => false
  | some s => !s.isEmpty

/-- The public options object (interface `CorsOptions`).  Outer `Option`:
key present in the object; inner `Option`: value not `undefined`. -/
structure CorsOptions where
  expressify : Option (Option Bool) := none
  origins : Option (Option StrOrList) := none
  allowMethods : Option (Option StrOrList) := none
  allowHeaders : Option (Option StrOrList) := none
  exposeHeaders : Option (Option StrOrList) := none
  credentials : Option (Option Bool) := none
  maxAge : Option (Option Int) := none
deriving DecidableEq, Repr

/-- The configuration resolved by `cors` at construction time: the
values of the variables captured by the returned handler. -/
structure Config where
  expressify : Option Bool
  credentials : Bool
  origins : Option StrOrList
  allowMethods : Option StrOrList
  allowHeaders : Option StrOrList
  exposeHeaders : Option StrOrList
  maxAge : Option Int
deriving DecidableEq, Repr

/-- `if (Array.isArray(x)) x = x.join(',')` -/
def joinIfArray : Option StrOrList → Option StrOrList
  | some (.list xs) => some (.str (String.intercalate "," xs))
  | x => x

/-- The spread merge `{ ...defaultOptions, ...options }` followed by the
normalisation in `cors`: array-valued `exposeHeaders`, `allowMethods`
and `allowHeaders` are comma-joined, `credentials` is coerced by `!!`.
`defaultOptions` supplies `expressify: true`, `credentials: false`,
`allowMethods: 'GET,HEAD,PATCH,PUT,POST,DELETE'`, `maxAge: 0`. -/
def cors (options : CorsOptions) : Config :=
  let expressify := options.expressify.getD (some true)
  let credentials := options.credentials.getD (some false)
  let origins := options.origins.getD none
  let allowMethods := options.allowMethods.getD (some (.str "GET,HEAD,PATCH,PUT,POST,DELETE"))
  let maxAge := options.maxAge.getD (some 0)
  let allowHeaders := options.allowHeaders.getD none
  let exposeHeaders := options.exposeHeaders.getD none
  { expressify := expressify
    credentials := (credentials.getD false)
    origins := origins
    allowMethods := joinIfArray allowMethods
    allowHeaders := joinIfArray allowHeaders
    exposeHeaders := joinIfArray exposeHeaders
    maxAge := maxAge }

/-- The request view: the method and the three headers the middleware
reads (`request.get` is only ever called on these header names). -/
structure Request where
  method : String
  origin : Option String
  acrm : Option String
  acrh : Option String
deriving DecidableEq, Repr

/-- The response view: headers (association list, insertion order kept),
status and body, which the middleware mutates. -/
structure Response where
  headers : List (String × StrOrList) := []
  status : Option Nat := none
  body : Option String := none
deriving DecidableEq, Repr

/-- Look a header up (first binding wins; `Response.set` keeps keys
unique so there is at most one). -/
def Response.get (r : Response) (k : String) : Option StrOrList :=
  (r.headers.find? (fun p => p.1 == k)).map (·.2)

/-- Replace the binding for `k`, or append a new one. -/
def setAssoc : List (String × StrOrList) → String → StrOrList → List (String × StrOrList)
  | [], k, v => [(k, v)]
  | (k', v') :: rest, k, v =>
      if k' == k then (k, v) :: rest else (k', v') :: setAssoc rest k v

/-- `response.set(field, value)`: overwrite the header. -/
def Response.set (r : Response) (k : String) (v : StrOrList) : Response :=
  { r with headers := setAssoc r.headers k v }

/-- `response.vary(field)`.  Modelled from the spec: the kernel's
`Response#vary` implementation is in `@macchiatojs/kernel`, not in this
repository; the spec states it appends the field to the existing `Vary`
value, comma-space joined, never overwriting, and sets it outright when
`Vary` is absent. -/
def Response.vary (r : Response) (field : String) : Response :=
  match r.get "Vary" with
  | some (.str s) =>
      if s.isEmpty then r.set "Vary" (.str field)
      else r.set "Vary" (.str (s ++ ", " ++ field))
  | _ => r.set "Vary" (.str field)

/-- `response.send(status, body)`.  Modelled from the spec: the kernel's
`Response#send` is external; it records the status code and body. -/
def Response.send (r : Response) (status : Nat) (body : String) : Response :=
  { r with status := some status, body := some body }

/-- Result of one invocation of the handler: the response after the
call, how many times `next` was invoked, and the closure state
(the captured configuration variables) after the call. -/
structure MainResult where
  resp : Response
  nextCalls : Nat
  cfg : Config
deriving DecidableEq, Repr

/-- `main(request, response, next)`, the per-request handler returned by
`cors`, transcribed line by line from src/index.ts lines 47-72.
(Named `Cors.main` because bare `main` is reserved in Lean.) -/
def Cors.main (cfg : Config) (req : Request) (resp : Response) : MainResult :=
  let requestOrigin := req.origin
  -- line 51: early out when we don't find origin
  if !truthyStr requestOrigin then ⟨resp, 1, cfg⟩
  else
    -- line 52: const origin = origins ?? requestOrigin
    let origin : StrOrList := cfg.origins.getD (.str (requestOrigin.getD ""))
    -- line 55: response.vary('Origin')
    let resp := resp.vary "Origin"
    -- line 57
    let resp := resp.set "Access-Control-Allow-Origin" origin
    -- line 58
    let resp :=
      if cfg.credentials then resp.set "Access-Control-Allow-Credentials" (.str "true")
      else resp
    -- line 61: simple cross-origin request
    if req.method != "OPTIONS" || !truthyStr req.acrm then
      let resp :=
        if truthy cfg.exposeHeaders then
          resp.set "Access-Control-Expose-Headers" (cfg.exposeHeaders.getD (.str ""))
        else resp
      ⟨resp, 1, cfg⟩
    else
      -- preflight request, lines 67-71
      let resp :=
        if truthy cfg.allowMethods then
          resp.set "Access-Control-Allow-Methods" (cfg.allowMethods.getD (.str ""))
        else resp
      -- line 68 assigns to the CAPTURED variable `allowHeaders`
      let allowHeaders :=
        if !truthy cfg.allowHeaders then req.acrh.map .str else cfg.allowHeaders
      let cfg := { cfg with allowHeaders := allowHeaders }
      let resp :=
        if truthy allowHeaders then
          resp.set "Access-Control-Allow-Headers" (allowHeaders.getD (.str ""))
        else resp
      let resp :=
        if (cfg.maxAge.getD 0) != 0 && (cfg.maxAge.getD 0) > 0 then
          resp.set "Access-Control-Max-Age" (.str (toString (cfg.maxAge.getD 0)))
        else resp
      ⟨resp.send 204 "", 0, cfg⟩

/-- `method === "OPTIONS"` and `Access-Control-Request-Method` present
and non-empty: the preflight test of line 61, stated positively. -/
def isPreflight (req : Request) : Bool :=
  req.method == "OPTIONS" && truthyStr req.acrm

/-! ### Algebra of the response operations -/

theorem find?_setAssoc_self (l : List (String × StrOrList)) (k : String) (v : StrOrList) :
    (setAssoc l k v).find? (fun p => p.1 == k) = some (k, v) := by
  induction l with
  | nil => simp [setAssoc]
  | cons hd tl ih =>
      obtain ⟨k', v'⟩ := hd
      by_cases h : k' = k
      · subst h; simp [setAssoc]
      · simp [setAssoc, h, List.find?, ih]

theorem find?_setAssoc_of_ne (l : List (String × StrOrList)) (k : String) (v : StrOrList)
    (k' : String) (h : ¬k' = k) :
    (setAssoc l k v).find? (fun p => p.1 == k') = l.find? (fun p => p.1 == k') := by
  have hb : (k == k') = false := beq_eq_false_iff_ne.mpr (Ne.symm h)
  induction l with
  | nil => simp [setAssoc, List.find?, hb]
  | cons hd tl ih =>
      obtain ⟨k₀, v₀⟩ := hd
      by_cases h₀ : k₀ = k
      · subst h₀
        simp [setAssoc, List.find?, hb]
      · simp [setAssoc, h₀, List.find?]
        by_cases h₁ : k₀ = k'
        · simp [h₁]
        · simp [h₁, ih]

@[simp] theorem Response.get_set_self (r : Response) (k : String) (v : StrOrList) :
    (r.set k v).get k = some v := by
  simp [Response.get, Response.set, find?_setAssoc_self]

@[simp] theorem Response.get_set_of_ne (r : Response) (k : String) (v : StrOrList)
    (k' : String) (h : ¬k' = k) :
    (r.set k v).get k' = r.get k' := by
  simp [Response.get, Response.set, find?_setAssoc_of_ne _ _ _ _ h]

@[simp] theorem Response.status_set (r : Response) (k : String) (v : StrOrList) :
    (r.set k v).status = r.status := rfl

@[simp] theorem Response.body_set (r : Response) (k : String) (v : StrOrList) :
    (r.set k v).body = r.body := rfl

@[simp] theorem Response.get_vary_of_ne (r : Response) (f : String) (k : String)
    (h : ¬k = "Vary") :
    (r.vary f).get k = r.get k := by
  unfold Response.vary
  split
  · split <;> simp [h]
  · simp [h]

@[simp] theorem Response.status_vary (r : Response) (f : String) :
    (r.vary f).status = r.status := by
  unfold Response.vary
  split
  · split <;> rfl
  · rfl

@[simp] theorem Response.body_vary (r : Response) (f : String) :
    (r.vary f).body = r.body := by
  unfold Response.vary
  split
  · split <;> rfl
  · rfl

@[simp] theorem Response.get_ite (c : Prop) [Decidable c] (r₁ r₂ : Response) (k : String) :
    (if c then r₁ else r₂).get k = if c then r₁.get k else r₂.get k := by
  split <;> rfl

@[simp] theorem Response.status_ite (c : Prop) [Decidable c] (r₁ r₂ : Response) :
    (if c then r₁ else r₂).status = if c then r₁.status else r₂.status := by
  split <;> rfl

@[simp] theorem Response.body_ite (c : Prop) [Decidable c] (r₁ r₂ : Response) :
    (if c then r₁ else r₂).body = if c then r₁.body else r₂.body := by
  split <;> rfl

@[simp] theorem MainResult.resp_ite (c : Prop) [Decidable c] (m₁ m₂ : MainResult) :
    (if c then m₁ else m₂).resp = if c then m₁.resp else m₂.resp := by
  split <;> rfl

@[simp] theorem MainResult.nextCalls_ite (c : Prop) [Decidable c] (m₁ m₂ : MainResult) :
    (if c then m₁ else m₂).nextCalls = if c then m₁.nextCalls else m₂.nextCalls := by
  split <;> rfl

@[simp] theorem MainResult.cfg_ite (c : Prop) [Decidable c] (m₁ m₂ : MainResult) :
    (if c then m₁ else m₂).cfg = if c then m₁.cfg else m₂.cfg := by
  split <;> rfl

@[simp] theorem Response.get_send (r : Response) (s : Nat) (b : String) (k : String) :
    (r.send s b).get k = r.get k := rfl

@[simp] theorem Response.status_send (r : Response) (s : Nat) (b : String) :
    (r.send s b).status = some s := rfl

@[simp] theorem Response.body_send (r : Response) (s : Nat) (b : String) :
    (r.send s b).body = some b := rfl

/-- The guard of line 61 (`method !== 'OPTIONS' || !request.get('Access-Control-Request-Method')`)
is the negation of the preflight test. -/
theorem branch_cond (req : Request) :
    (req.method != "OPTIONS" || !truthyStr req.acrm) = !isPreflight req := by
  cases h : req.method == "OPTIONS" <;> simp [isPreflight, bne, h]

/-! ### The claims -/

/-- Claim C1.  The claim states the evaluator holds no mutable state shared
between invocations and that a preflight leaves the resolved `allowHeaders`
unchanged for later invocations.  The code contradicts this: line 68 assigns
the request's `Access-Control-Request-Headers` to the `allowHeaders` variable
captured from the `cors` scope.  This theorem evaluates the code at the
failing input: with `allowHeaders` unconfigured, a preflight carrying
`Access-Control-Request-Headers: X-PINGOTHER` overwrites the captured
configuration, and a later preflight that carries no such request header is
answered with `Access-Control-Allow-Headers: X-PINGOTHER`, whereas the same
request against a fresh instance gets no such header. -/
theorem c1_closure_allowHeaders_mutation :
    (cors {}).allowHeaders = none ∧
    (Cors.main (cors {}) ⟨"OPTIONS", some "http://a.com", some "PUT", some "X-PINGOTHER"⟩ {}).cfg.allowHeaders
        = some (.str "X-PINGOTHER") ∧
    (Cors.main (Cors.main (cors {}) ⟨"OPTIONS", some "http://a.com", some "PUT", some "X-PINGOTHER"⟩ {}).cfg
        ⟨"OPTIONS", some "http://b.com", some "PUT", none⟩ {}).resp.get "Access-Control-Allow-Headers"
        = some (.str "X-PINGOTHER") ∧
    (Cors.main (cors {}) ⟨"OPTIONS", some "http://b.com", some "PUT", none⟩ {}).resp.get "Access-Control-Allow-Headers"
        = none := by decide

/-- Claim C2, counterexample.  The claim says every array-valued option,
including `origins`, is pre-joined into a comma-separated string and no
response header is ever set from an un-joined list.  The code joins only
`exposeHeaders`, `allowMethods` and `allowHeaders` (lines 42-44): a
list-valued `origins` survives construction un-joined and is set verbatim on
`Access-Control-Allow-Origin`. -/
theorem c2_origins_not_prejoined_cex :
    (cors { origins := some (some (.list ["http://a.com", "http://b.com"])) }).origins
        = some (.list ["http://a.com", "http://b.com"]) ∧
    (Cors.main (cors { origins := some (some (.list ["http://a.com", "http://b.com"])) })
        ⟨"GET", some "http://c.com", none, none⟩ {}).resp.get "Access-Control-Allow-Origin"
        = some (.list ["http://a.com", "http://b.com"]) := by decide

/-- Claim C2, amended.  At construction time the array-valued options
`allowMethods`, `allowHeaders` and `exposeHeaders` are pre-joined into
comma-separated strings and `credentials` is coerced to a boolean, but
`origins` is passed through un-joined. -/
theorem c2_construction_normalization (o : CorsOptions) (ms hs es os : List String)
    (hm : o.allowMethods = some (some (.list ms)))
    (hh : o.allowHeaders = some (some (.list hs)))
    (he : o.exposeHeaders = some (some (.list es)))
    (ho : o.origins = some (some (.list os))) :
    (cors o).allowMethods = some (.str (String.intercalate "," ms)) ∧
    (cors o).allowHeaders = some (.str (String.intercalate "," hs)) ∧
    (cors o).exposeHeaders = some (.str (String.intercalate "," es)) ∧
    (cors o).credentials = (o.credentials.getD (some false)).getD false ∧
    (cors o).origins = some (.list os) := by
  simp [cors, joinIfArray, hm, hh, he, ho]

/-- Witness for C2's amended theorem at a concrete options object. -/
theorem c2_construction_normalization_witness :
    (cors { origins := some (some (.list ["http://a.com", "http://b.com"])),
            allowMethods := some (some (.list ["GET", "POST"])),
            allowHeaders := some (some (.list ["X-A", "X-B"])),
            exposeHeaders := some (some (.list ["X-C"])) }).allowMethods
      = some (.str "GET,POST") ∧
    (cors { origins := some (some (.list ["http://a.com", "http://b.com"])),
            allowMethods := some (some (.list ["GET", "POST"])),
            allowHeaders := some (some (.list ["X-A", "X-B"])),
            exposeHeaders := some (some (.list ["X-C"])) }).origins
      = some (.list ["http://a.com", "http://b.com"]) := by
  obtain ⟨a, -, -, -, e⟩ :=
    c2_construction_normalization
      { origins := some (some (.list ["http://a.com", "http://b.com"])),
        allowMethods := some (some (.list ["GET", "POST"])),
        allowHeaders := some (some (.list ["X-A", "X-B"])),
        exposeHeaders := some (some (.list ["X-C"])) }
      ["GET", "POST"] ["X-A", "X-B"] ["X-C"] ["http://a.com", "http://b.com"]
      rfl rfl rfl rfl
  exact ⟨a.trans (by decide), e⟩

/-- Claim C3, counterexample.  The claim says every preflight request
(method `OPTIONS` with `Access-Control-Request-Method` present and
non-empty) yields status 204 and does not invoke `proceed`.  A preflight
request whose `Origin` header is absent takes the early-out of line 51
instead: `proceed` is invoked and the status is untouched. -/
theorem c3_preflight_without_origin_cex :
    isPreflight ⟨"OPTIONS", none, some "PUT", none⟩ = true ∧
    (Cors.main (cors {}) ⟨"OPTIONS", none, some "PUT", none⟩ {}).nextCalls = 1 ∧
    (Cors.main (cors {}) ⟨"OPTIONS", none, some "PUT", none⟩ {}).resp.status = none := by decide

/-- Claim C3, amended.  A request is a preflight iff its method is `OPTIONS`
and `Access-Control-Request-Method` is present and non-empty.  Every
preflight request that also carries a non-empty `Origin` yields status 204
with an empty body and does not invoke `proceed`; every non-preflight
request, and every request without a non-empty `Origin`, invokes `proceed`
exactly once and leaves the status unchanged (in particular it never sets
204). -/
theorem c3_preflight_branching (cfg : Config) (req : Request) (resp : Response) :
    (isPreflight req = true → truthyStr req.origin = true →
        (Cors.main cfg req resp).resp.status = some 204 ∧
        (Cors.main cfg req resp).resp.body = some "" ∧
        (Cors.main cfg req resp).nextCalls = 0) ∧
    (isPreflight req = false →
        (Cors.main cfg req resp).nextCalls = 1 ∧
        (Cors.main cfg req resp).resp.status = resp.status) ∧
    (truthyStr req.origin = false →
        (Cors.main cfg req resp).nextCalls = 1 ∧
        (Cors.main cfg req resp).resp.status = resp.status) := by
  refine ⟨fun hp ho => ?_, fun hp => ?_, fun ho => ?_⟩
  · simp +decide [Cors.main, ho, branch_cond, hp]
  · by_cases ho : truthyStr req.origin = true
    · simp +decide [Cors.main, ho, branch_cond, hp]
    · simp +decide [Cors.main, Bool.eq_false_iff.mpr ho]
  · simp +decide [Cors.main, ho]

/-- Witness for C3's amended theorem: a preflight with `Origin` yields 204
without calling `proceed`; an `OPTIONS` request without
`Access-Control-Request-Method` calls `proceed`. -/
theorem c3_preflight_branching_witness :
    (Cors.main (cors {}) ⟨"OPTIONS", some "http://koajs.com", some "PUT", none⟩ {}).resp.status
        = some 204 ∧
    (Cors.main (cors {}) ⟨"OPTIONS", some "http://koajs.com", some "PUT", none⟩ {}).nextCalls = 0 ∧
    (Cors.main (cors {}) ⟨"OPTIONS", some "http://koajs.com", none, none⟩ {}).nextCalls = 1 := by
  obtain ⟨a, -, b⟩ :=
    (c3_preflight_branching (cors {}) ⟨"OPTIONS", some "http://koajs.com", some "PUT", none⟩ {}).1
      (by decide) (by decide)
  obtain ⟨c, -⟩ :=
    (c3_preflight_branching (cors {}) ⟨"OPTIONS", some "http://koajs.com", none, none⟩ {}).2.1
      (by decide)
  exact ⟨a, b, c⟩

/-- Claim C4.  A request whose `Origin` header is absent or the empty string
leaves the response entirely unchanged, invokes `proceed` exactly once, and
leaves the configuration unchanged; absent and empty `Origin` behave
identically. -/
theorem c4_missing_origin_passthrough (cfg : Config) (req : Request) (resp : Response)
    (h : req.origin = none ∨ req.origin = some "") :
    Cors.main cfg req resp = ⟨resp, 1, cfg⟩ := by
  rcases h with h | h <;> simp +decide [Cors.main, h, truthyStr]

/-- Witness for C4 at both an absent and an empty `Origin` header. -/
theorem c4_missing_origin_passthrough_witness :
    Cors.main (cors {}) ⟨"GET", none, none, none⟩ {} = ⟨{}, 1, cors {}⟩ ∧
    Cors.main (cors {}) ⟨"GET", some "", none, none⟩ {} = ⟨{}, 1, cors {}⟩ :=
  ⟨c4_missing_origin_passthrough _ _ _ (Or.inl rfl),
   c4_missing_origin_passthrough _ _ _ (Or.inr rfl)⟩

/-- Claim C5.  For every request with a non-empty `Origin`,
`Access-Control-Allow-Origin` is the configured `origins` value when set
(`origins ?? requestOrigin`), and the request's `Origin` verbatim otherwise;
with `origins = "*"` the header is `"*"` regardless of the request. -/
theorem c5_allow_origin_resolution (cfg : Config) (req : Request) (resp : Response)
    (h : truthyStr req.origin = true) :
    (Cors.main cfg req resp).resp.get "Access-Control-Allow-Origin" =
      some (cfg.origins.getD (.str (req.origin.getD ""))) := by
  simp +decide [Cors.main, h]

/-- Witness for C5: `origins = "*"` wins over the request's `Origin`, and an
unset `origins` echoes the request's `Origin`. -/
theorem c5_allow_origin_resolution_witness :
    (Cors.main (cors { origins := some (some (.str "*")) })
        ⟨"GET", some "http://koajs.com", none, none⟩ {}).resp.get "Access-Control-Allow-Origin"
      = some (.str "*") ∧
    (Cors.main (cors {}) ⟨"GET", some "http://koajs.com", none, none⟩ {}).resp.get
        "Access-Control-Allow-Origin"
      = some (.str "http://koajs.com") :=
  ⟨(c5_allow_origin_resolution _ _ _ (by decide)).trans (by decide),
   (c5_allow_origin_resolution _ _ _ (by decide)).trans (by decide)⟩

/-- Claim C6.  For every request with a non-empty `Origin`, `Origin` is
appended to the response's `Vary` header without overwriting existing
values: a previous non-empty value `prev` becomes `prev ++ ", " ++ "Origin"`
(comma-space joined) and an absent `Vary` becomes `Origin`.  (The `Vary`
accumulation itself lives in the kernel's `Response#vary`, modelled from the
spec.) -/
theorem c6_vary_additive (cfg : Config) (req : Request) (resp : Response)
    (h : truthyStr req.origin = true) :
    (∀ prev, resp.get "Vary" = some (.str prev) → prev.isEmpty = false →
        (Cors.main cfg req resp).resp.get "Vary" = some (.str (prev ++ ", " ++ "Origin"))) ∧
    (resp.get "Vary" = none →
        (Cors.main cfg req resp).resp.get "Vary" = some (.str "Origin")) := by
  constructor
  · intro prev hv hne
    simp +decide [Cors.main, h, Response.vary, hv, hne]
  · intro hv
    simp +decide [Cors.main, h, Response.vary, hv]

/-- Witness for C6: starting from `Vary: Accept-Encoding` the final value is
`Accept-Encoding, Origin`; starting from no `Vary` it is `Origin`. -/
theorem c6_vary_additive_witness :
    (Cors.main (cors {}) ⟨"GET", some "http://koajs.com", none, none⟩
        { headers := [("Vary", .str "Accept-Encoding")] }).resp.get "Vary"
      = some (.str "Accept-Encoding, Origin") ∧
    (Cors.main (cors {}) ⟨"GET", some "http://koajs.com", none, none⟩ {}).resp.get "Vary"
      = some (.str "Origin") :=
  ⟨((c6_vary_additive _ _ _ (by decide)).1 "Accept-Encoding" (by decide) (by decide)).trans
      (by decide),
   (c6_vary_additive _ _ _ (by decide)).2 rfl⟩

/-- Claim C7.  For every request with a non-empty `Origin`: when
`credentials` is true, `Access-Control-Allow-Credentials` is set to exactly
the string `"true"` (the theorem covers both the simple and the preflight
branch, since it holds for every request); when false, the header is left
exactly as it was, never set to `"false"`. -/
theorem c7_credentials_header (cfg : Config) (req : Request) (resp : Response)
    (h : truthyStr req.origin = true) :
    (cfg.credentials = true →
        (Cors.main cfg req resp).resp.get "Access-Control-Allow-Credentials" = some (.str "true")) ∧
    (cfg.credentials = false →
        (Cors.main cfg req resp).resp.get "Access-Control-Allow-Credentials" =
          resp.get "Access-Control-Allow-Credentials") := by
  constructor <;> intro hc <;> simp +decide [Cors.main, h, hc]

/-- Witness for C7 on the simple path, the preflight path, and with
credentials unset. -/
theorem c7_credentials_header_witness :
    (Cors.main (cors { credentials := some (some true) })
        ⟨"GET", some "http://koajs.com", none, none⟩ {}).resp.get
        "Access-Control-Allow-Credentials" = some (.str "true") ∧
    (Cors.main (cors { credentials := some (some true) })
        ⟨"OPTIONS", some "http://koajs.com", some "DELETE", none⟩ {}).resp.get
        "Access-Control-Allow-Credentials" = some (.str "true") ∧
    (Cors.main (cors {}) ⟨"GET", some "http://koajs.com", none, none⟩ {}).resp.get
        "Access-Control-Allow-Credentials" = none :=
  ⟨(c7_credentials_header _ _ _ (by decide)).1 (by decide),
   (c7_credentials_header _ _ _ (by decide)).1 (by decide),
   ((c7_credentials_header _ _ _ (by decide)).2 (by decide)).trans (by decide)⟩

/-- Claim C8.  On every preflight with a non-empty `Origin`,
`Access-Control-Allow-Headers` is the configured `allowHeaders` when that
resolves to a (non-empty) value, otherwise the request's
`Access-Control-Request-Headers` when present and non-empty; when neither
resolves, the header is left untouched. -/
theorem c8_allow_headers_resolution (cfg : Config) (req : Request) (resp : Response)
    (ho : truthyStr req.origin = true) (hp : isPreflight req = true) :
    (truthy cfg.allowHeaders = true →
        (Cors.main cfg req resp).resp.get "Access-Control-Allow-Headers" = cfg.allowHeaders) ∧
    (truthy cfg.allowHeaders = false → truthyStr req.acrh = true →
        (Cors.main cfg req resp).resp.get "Access-Control-Allow-Headers" =
          some (.str (req.acrh.getD ""))) ∧
    (truthy cfg.allowHeaders = false → truthyStr req.acrh = false →
        (Cors.main cfg req resp).resp.get "Access-Control-Allow-Headers" =
          resp.get "Access-Control-Allow-Headers") := by
  refine ⟨fun ht => ?_, fun ht ha => ?_, fun ht ha => ?_⟩
  · match hah : cfg.allowHeaders with
    | none => rw [hah] at ht; exact absurd ht (by decide)
    | some v =>
        rw [hah] at ht
        simp +decide [Cors.main, ho, branch_cond, hp, hah, ht]
  · match hacrh : req.acrh with
    | none => rw [hacrh] at ha; exact absurd ha (by decide)
    | some s =>
        rw [hacrh] at ha
        have hs : s.isEmpty = false := by simpa [truthyStr] using ha
        have htv : truthy (some (.str s)) = true := by simp [truthy, hs]
        simp +decide [Cors.main, ho, branch_cond, hp, ht, hacrh, htv]
  · match hacrh : req.acrh with
    | none =>
        simp +decide [Cors.main, ho, branch_cond, hp, ht, hacrh]
    | some s =>
        rw [hacrh] at ha
        have hs : s.isEmpty = true := by simpa [truthyStr] using ha
        have htv : truthy (some (.str s)) = false := by simp [truthy, hs]
        simp +decide [Cors.main, ho, branch_cond, hp, ht, hacrh, htv]

/-- Witness for C8: configured value wins; unset falls back to the request's
`Access-Control-Request-Headers`; with neither, no header. -/
theorem c8_allow_headers_resolution_witness :
    (Cors.main (cors { allowHeaders := some (some (.str "X-Config")) })
        ⟨"OPTIONS", some "http://koajs.com", some "PUT", some "X-PINGOTHER"⟩ {}).resp.get
        "Access-Control-Allow-Headers" = some (.str "X-Config") ∧
    (Cors.main (cors {}) ⟨"OPTIONS", some "http://koajs.com", some "PUT", some "X-PINGOTHER"⟩
        {}).resp.get "Access-Control-Allow-Headers" = some (.str "X-PINGOTHER") ∧
    (Cors.main (cors {}) ⟨"OPTIONS", some "http://koajs.com", some "PUT", none⟩
        {}).resp.get "Access-Control-Allow-Headers" = none :=
  ⟨((c8_allow_headers_resolution _ _ _ (by decide) (by decide)).1 (by decide)).trans (by decide),
   ((c8_allow_headers_resolution _ _ _ (by decide) (by decide)).2.1 (by decide) (by decide)).trans
      (by decide),
   ((c8_allow_headers_resolution _ _ _ (by decide) (by decide)).2.2 (by decide) (by decide)).trans
      (by decide)⟩

/-- Claim C9.  Supplying an empty list for a list-valued option does not
raise (construction is total) and the option behaves as having no value:
`Access-Control-Expose-Headers` and `Access-Control-Allow-Methods` are never
set from it on any request, and on a preflight the `allowHeaders` fallback
to the request's `Access-Control-Request-Headers` applies instead. -/
theorem c9_empty_list_as_no_value (o : CorsOptions) (req : Request) (resp : Response)
    (hm : o.allowMethods = some (some (.list [])))
    (hh : o.allowHeaders = some (some (.list [])))
    (he : o.exposeHeaders = some (some (.list []))) :
    (Cors.main (cors o) req resp).resp.get "Access-Control-Expose-Headers" =
        resp.get "Access-Control-Expose-Headers" ∧
    (Cors.main (cors o) req resp).resp.get "Access-Control-Allow-Methods" =
        resp.get "Access-Control-Allow-Methods" ∧
    (truthyStr req.origin = true → isPreflight req = true → truthyStr req.acrh = true →
        (Cors.main (cors o) req resp).resp.get "Access-Control-Allow-Headers" =
          some (.str (req.acrh.getD ""))) := by
  have hM : (cors o).allowMethods = some (.str "") := by
    simp [cors, hm, joinIfArray, String.intercalate]
  have hH : (cors o).allowHeaders = some (.str "") := by
    simp [cors, hh, joinIfArray, String.intercalate]
  have hE : (cors o).exposeHeaders = some (.str "") := by
    simp [cors, he, joinIfArray, String.intercalate]
  refine ⟨?_, ?_, fun ho hp ha => ?_⟩
  · by_cases hor : truthyStr req.origin = true
    · simp +decide [Cors.main, hor, hE, hM, hH]
    · simp +decide [Cors.main, Bool.eq_false_iff.mpr hor]
  · by_cases hor : truthyStr req.origin = true
    · simp +decide [Cors.main, hor, hE, hM, hH]
    · simp +decide [Cors.main, Bool.eq_false_iff.mpr hor]
  · match hacrh : req.acrh with
    | none => rw [hacrh] at ha; exact absurd ha (by decide)
    | some s =>
        rw [hacrh] at ha
        have hs : s.isEmpty = false := by simpa [truthyStr] using ha
        have htv : truthy (some (.str s)) = true := by simp [truthy, hs]
        simp +decide [Cors.main, ho, branch_cond, hp, hH, hacrh, htv]

/-- Witness for C9: all three options set to the empty list, on a preflight
carrying `Access-Control-Request-Headers: X-PINGOTHER`. -/
theorem c9_empty_list_as_no_value_witness :
    (Cors.main (cors { allowMethods := some (some (.list [])),
                       allowHeaders := some (some (.list [])),
                       exposeHeaders := some (some (.list [])) })
        ⟨"OPTIONS", some "http://koajs.com", some "PUT", some "X-PINGOTHER"⟩ {}).resp.get
        "Access-Control-Expose-Headers" = none ∧
    (Cors.main (cors { allowMethods := some (some (.list [])),
                       allowHeaders := some (some (.list [])),
                       exposeHeaders := some (some (.list [])) })
        ⟨"OPTIONS", some "http://koajs.com", some "PUT", some "X-PINGOTHER"⟩ {}).resp.get
        "Access-Control-Allow-Methods" = none ∧
    (Cors.main (cors { allowMethods := some (some (.list [])),
                       allowHeaders := some (some (.list [])),
                       exposeHeaders := some (some (.list [])) })
        ⟨"OPTIONS", some "http://koajs.com", some "PUT", some "X-PINGOTHER"⟩ {}).resp.get
        "Access-Control-Allow-Headers" = some (.str "X-PINGOTHER") := by
  obtain ⟨a, b, c⟩ :=
    c9_empty_list_as_no_value
      { allowMethods := some (some (.list [])),
        allowHeaders := some (some (.list [])),
        exposeHeaders := some (some (.list [])) }
      ⟨"OPTIONS", some "http://koajs.com", some "PUT", some "X-PINGOTHER"⟩ {} rfl rfl rfl
  exact ⟨a.trans (by decide), b.trans (by decide),
         (c (by decide) (by decide) (by decide)).trans (by decide)⟩

/-- Claim C10.  The spread merge `{...defaultOptions, ...options}` treats a
key explicitly present and mapped to `undefined` as an override: with
`allowMethods: undefined` the documented default is overridden and a
preflight response carries no `Access-Control-Allow-Methods`, while omitting
the key entirely yields the default `GET,HEAD,PATCH,PUT,POST,DELETE`. -/
theorem c10_explicit_undefined_overrides_default (req : Request) (resp : Response)
    (ho : truthyStr req.origin = true) (hp : isPreflight req = true) :
    (cors { allowMethods := some none }).allowMethods = none ∧
    (Cors.main (cors { allowMethods := some none }) req resp).resp.get
        "Access-Control-Allow-Methods" = resp.get "Access-Control-Allow-Methods" ∧
    (cors {}).allowMethods = some (.str "GET,HEAD,PATCH,PUT,POST,DELETE") ∧
    (Cors.main (cors {}) req resp).resp.get "Access-Control-Allow-Methods"
        = some (.str "GET,HEAD,PATCH,PUT,POST,DELETE") := by
  refine ⟨rfl, ?_, rfl, ?_⟩
  · simp +decide [Cors.main, ho, branch_cond, hp, cors, joinIfArray]
  · simp +decide [Cors.main, ho, branch_cond, hp, cors, joinIfArray]

/-- Witness for C10 at a concrete preflight request. -/
theorem c10_explicit_undefined_overrides_default_witness :
    (cors { allowMethods := some none }).allowMethods = none ∧
    (Cors.main (cors { allowMethods := some none })
        ⟨"OPTIONS", some "http://koajs.com", some "PUT", none⟩ {}).resp.get
        "Access-Control-Allow-Methods" = none ∧
    (cors {}).allowMethods = some (.str "GET,HEAD,PATCH,PUT,POST,DELETE") ∧
    (Cors.main (cors {}) ⟨"OPTIONS", some "http://koajs.com", some "PUT", none⟩ {}).resp.get
        "Access-Control-Allow-Methods" = some (.str "GET,HEAD,PATCH,PUT,POST,DELETE") := by
  obtain ⟨a, b, c, d⟩ :=
    c10_explicit_undefined_overrides_default
      ⟨"OPTIONS", some "http://koajs.com", some "PUT", none⟩ {} (by decide) (by decide)
  exact ⟨a, b.trans (by decide), c, d⟩
